import Mathlib

/-!
Shallow embedding of the `spider-query-builder` library:
`src/spdrParam.ts` (parameter value objects that pre-render their
query-string token at construction) and `src/spdrQueryBuilder.ts`
(the fluent `SpdrQueryBuilder` accumulating parameters in three
categories and rebuilding a joined query string after every structural
mutation).  JavaScript strings are modelled as Lean `String`
(`slice(n)` on a nonnegative index is `String.drop n`, `slice(0, 10)`
is `String.take 10`), JS numbers occurring here as `Int`, an optional
argument `x?` as `Option`.
-/

/-- Decimal digit characters of a natural number, two digits, zero padded.
Models the two-digit fields of ECMAScript's Date Time String Format
(month, day, hour, minute, second); those fields are always below 100. -/
def pad2 (n : Nat) : String :=
  String.mk [Nat.digitChar (n / 10 % 10), Nat.digitChar (n % 10)]

/-- Three-digit zero-padded decimal rendering (milliseconds field). -/
def pad3 (n : Nat) : String :=
  String.mk [Nat.digitChar (n / 100 % 10), Nat.digitChar (n / 10 % 10),
    Nat.digitChar (n % 10)]

/-- Four-digit zero-padded decimal rendering, used for ISO-8601 years
in the range 0..9999. -/
def pad4 (n : Nat) : String :=
  String.mk [Nat.digitChar (n / 1000 % 10), Nat.digitChar (n / 100 % 10),
    Nat.digitChar (n / 10 % 10), Nat.digitChar (n % 10)]

/-- Six-digit zero-padded decimal rendering, used for ISO-8601 expanded
years (ECMAScript expanded year format; JS years are bounded by 275760). -/
def pad6 (n : Nat) : String :=
  String.mk [Nat.digitChar (n / 100000 % 10), Nat.digitChar (n / 10000 % 10),
    Nat.digitChar (n / 1000 % 10), Nat.digitChar (n / 100 % 10),
    Nat.digitChar (n / 10 % 10), Nat.digitChar (n % 10)]

/-- Year field of `Date.prototype.toISOString` per ECMAScript
(21.4.4.36 and the Date Time String Format): years 0..9999 print as four
digits; years outside that range use the expanded form, a sign followed
by six digits. -/
def isoYearString (y : Int) : String :=
  if 0 ≤ y ∧ y ≤ 9999 then pad4 y.toNat
  else if y < 0 then "-" ++ pad6 (-y).toNat
  else "+" ++ pad6 y.toNat

/-- A JavaScript `Date`, modelled by its UTC calendar components (the
components `toISOString` prints).  A genuine JS `Date` always has
`1 ≤ month ≤ 12` and `1 ≤ day ≤ 31`; the fields after `day` are the
time of day, discarded by `slice(0, 10)`. -/
structure JSDate where
  year : Int
  month : Nat
  day : Nat
  hour : Nat
  minute : Nat
  second : Nat
  ms : Nat
deriving DecidableEq

/-- First ten characters of the ISO string for an in-range year:
`YYYY-MM-DD`. -/
def JSDate.isoDatePart (d : JSDate) : String :=
  isoYearString d.year ++ "-" ++ pad2 d.month ++ "-" ++ pad2 d.day

/-- Time-of-day suffix of the ISO string: `THH:mm:ss.sssZ`. -/
def JSDate.isoTimePart (d : JSDate) : String :=
  "T" ++ pad2 d.hour ++ ":" ++ pad2 d.minute ++ ":" ++ pad2 d.second ++
    "." ++ pad3 d.ms ++ "Z"

/-- `Date.prototype.toISOString`: date part then time part, always UTC. -/
def JSDate.toISOString (d : JSDate) : String :=
  d.isoDatePart ++ d.isoTimePart

/-- JavaScript `ToString` on the (integral) numbers appearing in this
library. -/
def jsNumString (n : Int) : String := toString n

/-- JavaScript `Boolean.prototype.toString`. -/
def jsBoolString (b : Bool) : String := if b then "true" else "false"

/-- JavaScript truthiness of an optional number (`!!secondValue` in
`SpdrRange`): `undefined` and `0` are falsy. -/
def numTruthy : Option Int → Bool
  | none => false
  | some v => v != 0

/-- Base operators (`enum Operator` in `spdrParam.ts`). -/
inductive Operator where
  | exists
  | equals
  | sort
deriving DecidableEq

/-- String value of each `Operator` member. -/
def Operator.str : Operator → String
  | .exists => "exists"
  | .equals => "="
  | .sort => "order"

/-- Sort values (`enum OrderOperator`). -/
inductive OrderOperator where
  | asc
  | desc
deriving DecidableEq

/-- String value of each `OrderOperator` member. -/
def OrderOperator.str : OrderOperator → String
  | .asc => "asc"
  | .desc => "desc"

/-- Range and comparison operators (`enum RangeOperator`). -/
inductive RangeOperator where
  | lt
  | lte
  | gt
  | gte
  | between
deriving DecidableEq

/-- String value of each `RangeOperator` member. -/
def RangeOperator.str : RangeOperator → String
  | .lt => "lt"
  | .lte => "lte"
  | .gt => "gt"
  | .gte => "gte"
  | .between => "between"

/-- Date comparison operators (`enum DateOperator`). -/
inductive DateOperator where
  | after
  | before
  | strictlyAfter
  | strictlyBefore
deriving DecidableEq

/-- String value of each `DateOperator` member. -/
def DateOperator.str : DateOperator → String
  | .after => "after"
  | .before => "before"
  | .strictlyAfter => "strictly_after"
  | .strictlyBefore => "strictly_before"

/-- Pagination properties (`enum PageOperator`). -/
inductive PageOperator where
  | pagination
  | page
  | itemsPerPage
deriving DecidableEq

/-- String value of each `PageOperator` member. -/
def PageOperator.str : PageOperator → String
  | .pagination => "pagination"
  | .page => "page"
  | .itemsPerPage => "itemsPerPage"

/-- The `operator` field of a parameter has the TypeScript union type
`Operator | RangeOperator | DateOperator`. -/
inductive SpdrOperator where
  | base : Operator → SpdrOperator
  | range : RangeOperator → SpdrOperator
  | date : DateOperator → SpdrOperator
deriving DecidableEq

/-- The `value: any` field of a parameter, restricted to the value shapes
the concrete `SpdrParam` subclasses actually store. -/
inductive SpdrValue where
  | bool : Bool → SpdrValue
  | num : Int → SpdrValue
  | strings : List String → SpdrValue
  | date : JSDate → SpdrValue
  | order : OrderOperator → SpdrValue
deriving DecidableEq

/-- `SpdrParamInterface` / the state of an `SpdrParam` after its
constructor ran: `property`, `operator` and `value` from the base-class
constructor, and the pre-rendered token `query` set exactly once by the
subclass constructor. -/
structure SpdrParam where
  property : String
  operator : SpdrOperator
  value : SpdrValue
  query : String
deriving DecidableEq

/-- `new SpdrExists(property, value)`:
token `exists[<property>]=<true|false>`. -/
def SpdrExists (property : String) (value : Bool) : SpdrParam :=
  { property := property
    operator := .base .exists
    value := .bool value
    query := Operator.str .exists ++ "[" ++ property ++ "]=" ++ jsBoolString value }

/-- Token of `SpdrSearch`: a single value renders
`<property>=<value>`; otherwise a `forEach` over the values with index
appends `<property>[]=<value><operand>`, the last value omitting the
trailing operand.  (An empty list takes the `forEach` branch and leaves
the initial empty string.) -/
def SpdrSearch.renderQuery (property : String) (values : List String)
    (operand : String) : String :=
  if values.length = 1 then
    property ++ Operator.str .equals ++ values.headD ""
  else
    values.enum.foldl
      (fun acc iv =>
        if iv.1 = values.length - 1 then
          acc ++ (property ++ "[]" ++ Operator.str .equals ++ iv.2)
        else
          acc ++ (property ++ "[]" ++ Operator.str .equals ++ iv.2 ++ operand))
      ""

/-- `new SpdrSearch(property, values, operand = '&')`. -/
def SpdrSearch (property : String) (values : List String)
    (operand : String := "&") : SpdrParam :=
  { property := property
    operator := .base .equals
    value := .strings values
    query := SpdrSearch.renderQuery property values operand }

/-- `new SpdrDate(property, operator, value)`:
token `<property>[<operator>]=` followed by
`value.toISOString().slice(0, 10)`. -/
def SpdrDate (property : String) (operator : DateOperator) (value : JSDate) :
    SpdrParam :=
  { property := property
    operator := .date operator
    value := .date value
    query := property ++ "[" ++ DateOperator.str operator ++ "]=" ++
      value.toISOString.take 10 }

/-- `new SpdrRange(property, operator, value, secondValue?)`:
`!!secondValue && operator === RangeOperator.between` selects the
two-ended `<v>..<v2>` form, otherwise the single-value form. -/
def SpdrRange (property : String) (operator : RangeOperator) (value : Int)
    (secondValue : Option Int := none) : SpdrParam :=
  { property := property
    operator := .range operator
    value := .num value
    query :=
      if numTruthy secondValue && (operator == RangeOperator.between) then
        property ++ "[" ++ RangeOperator.str operator ++ "]=" ++
          jsNumString value ++ ".." ++ jsNumString ((secondValue.getD 0))
      else
        property ++ "[" ++ RangeOperator.str operator ++ "]=" ++
          jsNumString value }

/-- `new SpdrOrder(property, value)`: token `order[<property>]=<asc|desc>`. -/
def SpdrOrder (property : String) (value : OrderOperator) : SpdrParam :=
  { property := property
    operator := .base .sort
    value := .order value
    query := Operator.str .sort ++ "[" ++ property ++ "]=" ++
      OrderOperator.str value }

/-- `new SpdrPagination(value = true, property = 'pagination')`. -/
def SpdrPagination (value : Bool := true)
    (property : String := PageOperator.str .pagination) : SpdrParam :=
  { property := property
    operator := .base .equals
    value := .bool value
    query := property ++ Operator.str .equals ++ jsBoolString value }

/-- `new SpdrPageIdx(value, property = 'page')`. -/
def SpdrPageIdx (value : Int)
    (property : String := PageOperator.str .page) : SpdrParam :=
  { property := property
    operator := .base .equals
    value := .num value
    query := property ++ Operator.str .equals ++ jsNumString value }

/-- `new SpdrPageSize(value, property = 'itemsPerPage')`. -/
def SpdrPageSize (value : Int)
    (property : String := PageOperator.str .itemsPerPage) : SpdrParam :=
  { property := property
    operator := .base .equals
    value := .num value
    query := property ++ Operator.str .equals ++ jsNumString value }

/-- `enum SpdrParamType` in `spdrQueryBuilder.ts`. -/
inductive SpdrParamType where
  | param
  | sort
  | pagination
deriving DecidableEq

/-- State of an `SpdrQueryBuilder`: the private fields of the class. -/
@[ext]
structure SpdrQueryBuilder where
  _query : String
  _operand : String
  _history : List String
  _params : List SpdrParam
  _sortParams : List SpdrParam
  _paginationParams : List SpdrParam
deriving DecidableEq

namespace SpdrQueryBuilder

/-- The class constant `_DEFAULT_OPERAND = '&'`. -/
def _DEFAULT_OPERAND : String := "&"

/-- `new SpdrQueryBuilder(operand?)`. -/
def new (operand : Option String := none) : SpdrQueryBuilder :=
  { _query := ""
    _operand := operand.getD _DEFAULT_OPERAND
    _history := []
    _params := []
    _sortParams := []
    _paginationParams := [] }

/-- `operand(value)`: replaces the delimiter.  Note no rebuild happens. -/
def operand (b : SpdrQueryBuilder) (value : String) : SpdrQueryBuilder :=
  { b with _operand := value }

/-- `clearHistory()`. -/
def clearHistory (b : SpdrQueryBuilder) : SpdrQueryBuilder :=
  { b with _history := [] }

/-- `_append(param, operand = this._operand)`:
`this._query += operand + param.query`. -/
def _append (b : SpdrQueryBuilder) (param : SpdrParam) : SpdrQueryBuilder :=
  { b with _query := b._query ++ (b._operand ++ param.query) }

/-- `_buildQuery()`: reset the accumulator and `_append` every parameter
of `[...params, ...sortParams, ...paginationParams]` in order. -/
def _buildQuery (b : SpdrQueryBuilder) : SpdrQueryBuilder :=
  (b._params ++ b._sortParams ++ b._paginationParams).foldl _append
    { b with _query := "" }

/-- `get query()`: the accumulator with its first `operand.length`
characters sliced off. -/
def query (b : SpdrQueryBuilder) : String :=
  b._query.drop b._operand.length

/-- `get history()`. -/
def history (b : SpdrQueryBuilder) : List String := b._history

/-- `get previousQuery()`: `this._history[this._history.length - 1]`,
`undefined` (`none`) on an empty history. -/
def previousQuery (b : SpdrQueryBuilder) : Option String :=
  b._history.get? (b._history.length - 1)

/-- `_addParam(param)`. -/
def _addParam (b : SpdrQueryBuilder) (param : SpdrParam) : SpdrQueryBuilder :=
  { b with _params := b._params ++ [param] }._buildQuery

/-- `_addSortParam(param)`. -/
def _addSortParam (b : SpdrQueryBuilder) (param : SpdrParam) :
    SpdrQueryBuilder :=
  { b with _sortParams := b._sortParams ++ [param] }._buildQuery

/-- `_addPaginationParam(param)`. -/
def _addPaginationParam (b : SpdrQueryBuilder) (param : SpdrParam) :
    SpdrQueryBuilder :=
  { b with _paginationParams := b._paginationParams ++ [param] }._buildQuery

/-- `search(property, values, operand = this._operand)`. -/
def search (b : SpdrQueryBuilder) (property : String) (values : List String)
    (operand : Option String := none) : SpdrQueryBuilder :=
  b._addParam (SpdrSearch property values (operand.getD b._operand))

/-- `range(property, operator, value, secondValue?)`. -/
def range (b : SpdrQueryBuilder) (property : String) (operator : RangeOperator)
    (value : Int) (secondValue : Option Int := none) : SpdrQueryBuilder :=
  b._addParam (SpdrRange property operator value secondValue)

/-- `date(property, operator, value)`. -/
def date (b : SpdrQueryBuilder) (property : String) (operator : DateOperator)
    (value : JSDate) : SpdrQueryBuilder :=
  b._addParam (SpdrDate property operator value)

/-- `order(property, direction)`. -/
def order (b : SpdrQueryBuilder) (property : String)
    (direction : OrderOperator) : SpdrQueryBuilder :=
  b._addSortParam (SpdrOrder property direction)

/-- `enablePagination(value = true, property = 'pagination')`. -/
def enablePagination (b : SpdrQueryBuilder) (value : Bool := true)
    (property : String := PageOperator.str .pagination) : SpdrQueryBuilder :=
  b._addPaginationParam (SpdrPagination value property)

/-- `pageIndex(value, property = 'page')`. -/
def pageIndex (b : SpdrQueryBuilder) (value : Int)
    (property : String := PageOperator.str .page) : SpdrQueryBuilder :=
  b._addPaginationParam (SpdrPageIdx value property)

/-- `pageSize(value, property = 'itemsPerPage')`. -/
def pageSize (b : SpdrQueryBuilder) (value : Int)
    (property : String := PageOperator.str .itemsPerPage) : SpdrQueryBuilder :=
  b._addPaginationParam (SpdrPageSize value property)

/-- `clear(type?)`: empty the selected sequences, push the getter value
`this.query` (computed on the still-unrebuilt accumulator) onto the
history, then rebuild. -/
def clear (b : SpdrQueryBuilder) (type : Option SpdrParamType := none) :
    SpdrQueryBuilder :=
  let b1 :=
    match type with
    | some .param => { b with _params := [] }
    | some .sort => { b with _sortParams := [] }
    | some .pagination => { b with _paginationParams := [] }
    | none =>
      { b with _params := [], _sortParams := [], _paginationParams := [] }
  let b2 := { b1 with _history := b1._history ++ [b1.query] }
  b2._buildQuery

/-- `remove(property, type?)`: filter the selected sequences by
`param.property !== property`, then rebuild.  The history is untouched. -/
def remove (b : SpdrQueryBuilder) (property : String)
    (type : Option SpdrParamType := none) : SpdrQueryBuilder :=
  let b1 :=
    match type with
    | some .param =>
      { b with _params := b._params.filter (fun p => p.property != property) }
    | some .sort =>
      { b with
        _sortParams := b._sortParams.filter (fun p => p.property != property) }
    | some .pagination =>
      { b with
        _paginationParams :=
          b._paginationParams.filter (fun p => p.property != property) }
    | none =>
      { b with
        _params := b._params.filter (fun p => p.property != property)
        _sortParams := b._sortParams.filter (fun p => p.property != property)
        _paginationParams :=
          b._paginationParams.filter (fun p => p.property != property) }
  b1._buildQuery

/-- `set params(value)`. -/
def setParams (b : SpdrQueryBuilder) (value : List SpdrParam) :
    SpdrQueryBuilder :=
  { b with _params := value }._buildQuery

/-- `set sortParams(value)`. -/
def setSortParams (b : SpdrQueryBuilder) (value : List SpdrParam) :
    SpdrQueryBuilder :=
  { b with _sortParams := value }._buildQuery

/-- `set paginationParams(value)`. -/
def setPaginationParams (b : SpdrQueryBuilder) (value : List SpdrParam) :
    SpdrQueryBuilder :=
  { b with _paginationParams := value }._buildQuery

/-- The combined parameter list `[...params, ...sortParams,
...paginationParams]` walked by `_buildQuery`. -/
def allParams (b : SpdrQueryBuilder) : List SpdrParam :=
  b._params ++ b._sortParams ++ b._paginationParams

/-- Tokens of the combined parameter list, in category order then
insertion order. -/
def allParamTokens (b : SpdrQueryBuilder) : List String :=
  (allParams b).map SpdrParam.query

end SpdrQueryBuilder

/-- `exists(property, value = true)` on the builder. -/
def SpdrQueryBuilder.exists (b : SpdrQueryBuilder) (property : String)
    (value : Bool := true) : SpdrQueryBuilder :=
  b._addParam (SpdrExists property value)

/-- Spec-side join: the tokens concatenated with the operand between
consecutive tokens — each token except the last is followed by one
operand, the last is not ("joined by the operand"). -/
def operandJoin (operand : String) : List String → String
  | [] => ""
  | [t] => t
  | t :: t2 :: ts => t ++ operand ++ operandJoin operand (t2 :: ts)

/-- Spec-side invariant of claim C3: the externally visible `query`
equals the from-scratch recomputation, i.e. the operand-join of the
current tokens of the three sequences under the current operand. -/
def queryInvariant (b : SpdrQueryBuilder) : Prop :=
  SpdrQueryBuilder.query b =
    operandJoin b._operand (SpdrQueryBuilder.allParamTokens b)

/-- Spec-side rendering of a UTC calendar date as `YYYY-MM-DD`
(what the spec says the date token's date part is). -/
def utcDateString (d : JSDate) : String :=
  pad4 d.year.toNat ++ "-" ++ pad2 d.month ++ "-" ++ pad2 d.day

/-- Concatenation of one operand-prefixed copy of each token, exactly the
string `_buildQuery` accumulates. -/
def prefixConcat (operand : String) : List String → String
  | [] => ""
  | t :: ts => operand ++ t ++ prefixConcat operand ts

/-! ## Helper lemmas -/

theorem string_drop_append (s t : String) : (s ++ t).drop s.length = t := by
  apply String.ext
  rw [String.data_drop, String.data_append]
  exact List.drop_left s.data t.data

theorem string_take_append (s t : String) : (s ++ t).take s.length = s := by
  apply String.ext
  rw [String.data_take, String.data_append]
  exact List.take_left s.data t.data

theorem string_drop_empty (n : Nat) : ("" : String).drop n = "" := by
  apply String.ext
  rw [String.data_drop]
  simp

theorem list_get?_length_sub_one (l : List String) :
    l.get? (l.length - 1) = l.getLast? := by
  induction l with
  | nil => rfl
  | cons a t ih => cases t <;> simp_all [List.getLast?]

theorem list_filter_idem {α : Type} (f : α → Bool) (l : List α) :
    (l.filter f).filter f = l.filter f := by
  induction l with
  | nil => rfl
  | cons a t ih =>
    by_cases h : f a <;> simp [List.filter_cons, h, ih]

namespace SpdrQueryBuilder

theorem foldl_append_operand (l : List SpdrParam) (s : SpdrQueryBuilder) :
    (l.foldl _append s)._operand = s._operand := by
  induction l generalizing s with
  | nil => rfl
  | cons p t ih =>
    rw [List.foldl_cons, ih]
    rfl

theorem foldl_append_history (l : List SpdrParam) (s : SpdrQueryBuilder) :
    (l.foldl _append s)._history = s._history := by
  induction l generalizing s with
  | nil => rfl
  | cons p t ih =>
    rw [List.foldl_cons, ih]
    rfl

theorem foldl_append_params (l : List SpdrParam) (s : SpdrQueryBuilder) :
    (l.foldl _append s)._params = s._params := by
  induction l generalizing s with
  | nil => rfl
  | cons p t ih =>
    rw [List.foldl_cons, ih]
    rfl

theorem foldl_append_sortParams (l : List SpdrParam) (s : SpdrQueryBuilder) :
    (l.foldl _append s)._sortParams = s._sortParams := by
  induction l generalizing s with
  | nil => rfl
  | cons p t ih =>
    rw [List.foldl_cons, ih]
    rfl

theorem foldl_append_paginationParams (l : List SpdrParam)
    (s : SpdrQueryBuilder) :
    (l.foldl _append s)._paginationParams = s._paginationParams := by
  induction l generalizing s with
  | nil => rfl
  | cons p t ih =>
    rw [List.foldl_cons, ih]
    rfl

end SpdrQueryBuilder

namespace SpdrQueryBuilder

theorem foldl_append_query (l : List SpdrParam) (s : SpdrQueryBuilder) :
    (l.foldl _append s)._query
      = s._query ++ prefixConcat s._operand (l.map SpdrParam.query) := by
  induction l generalizing s with
  | nil => simp [prefixConcat]
  | cons p t ih =>
    rw [List.foldl_cons, ih]
    simp [_append, prefixConcat, String.append_assoc]

theorem buildQuery_query (b : SpdrQueryBuilder) :
    b._buildQuery._query = prefixConcat b._operand (allParamTokens b) := by
  unfold _buildQuery
  rw [foldl_append_query]
  simp [allParamTokens, allParams]

theorem buildQuery_operand (b : SpdrQueryBuilder) :
    b._buildQuery._operand = b._operand := by
  unfold _buildQuery
  rw [foldl_append_operand]

theorem buildQuery_history (b : SpdrQueryBuilder) :
    b._buildQuery._history = b._history := by
  unfold _buildQuery
  rw [foldl_append_history]

theorem buildQuery_params (b : SpdrQueryBuilder) :
    b._buildQuery._params = b._params := by
  unfold _buildQuery
  rw [foldl_append_params]

theorem buildQuery_sortParams (b : SpdrQueryBuilder) :
    b._buildQuery._sortParams = b._sortParams := by
  unfold _buildQuery
  rw [foldl_append_sortParams]

theorem buildQuery_paginationParams (b : SpdrQueryBuilder) :
    b._buildQuery._paginationParams = b._paginationParams := by
  unfold _buildQuery
  rw [foldl_append_paginationParams]

theorem buildQuery_allParamTokens (b : SpdrQueryBuilder) :
    allParamTokens b._buildQuery = allParamTokens b := by
  simp [allParamTokens, allParams, buildQuery_params, buildQuery_sortParams,
    buildQuery_paginationParams]

end SpdrQueryBuilder

theorem prefixConcat_eq_operandJoin (op : String) (toks : List String)
    (h : toks ≠ []) : prefixConcat op toks = op ++ operandJoin op toks := by
  induction toks with
  | nil => exact absurd rfl h
  | cons t ts ih =>
    cases ts with
    | nil => simp [prefixConcat, operandJoin, String.append_assoc]
    | cons t2 ts' =>
      rw [show prefixConcat op (t :: t2 :: ts')
            = op ++ t ++ prefixConcat op (t2 :: ts') from rfl,
        ih (by simp)]
      simp [operandJoin, String.append_assoc]

theorem buildQuery_queryInvariant (b : SpdrQueryBuilder) :
    queryInvariant b._buildQuery := by
  unfold queryInvariant
  rw [SpdrQueryBuilder.buildQuery_allParamTokens,
    SpdrQueryBuilder.buildQuery_operand]
  unfold SpdrQueryBuilder.query
  rw [SpdrQueryBuilder.buildQuery_query, SpdrQueryBuilder.buildQuery_operand]
  by_cases h : SpdrQueryBuilder.allParamTokens b = []
  · rw [h]
    simp [prefixConcat, operandJoin, string_drop_empty]
  · rw [prefixConcat_eq_operandJoin _ _ h, string_drop_append]

theorem buildQuery_congr {b1 b2 : SpdrQueryBuilder}
    (hop : b1._operand = b2._operand) (hh : b1._history = b2._history)
    (hp : b1._params = b2._params) (hs : b1._sortParams = b2._sortParams)
    (hg : b1._paginationParams = b2._paginationParams) :
    b1._buildQuery = b2._buildQuery := by
  have htok : SpdrQueryBuilder.allParamTokens b1
      = SpdrQueryBuilder.allParamTokens b2 := by
    unfold SpdrQueryBuilder.allParamTokens SpdrQueryBuilder.allParams
    rw [hp, hs, hg]
  apply SpdrQueryBuilder.ext
  · rw [SpdrQueryBuilder.buildQuery_query, SpdrQueryBuilder.buildQuery_query,
      hop, htok]
  · rw [SpdrQueryBuilder.buildQuery_operand,
      SpdrQueryBuilder.buildQuery_operand, hop]
  · rw [SpdrQueryBuilder.buildQuery_history,
      SpdrQueryBuilder.buildQuery_history, hh]
  · rw [SpdrQueryBuilder.buildQuery_params,
      SpdrQueryBuilder.buildQuery_params, hp]
  · rw [SpdrQueryBuilder.buildQuery_sortParams,
      SpdrQueryBuilder.buildQuery_sortParams, hs]
  · rw [SpdrQueryBuilder.buildQuery_paginationParams,
      SpdrQueryBuilder.buildQuery_paginationParams, hg]

theorem searchFold_spec (property operand : String) (n : Nat) :
    ∀ (values : List String) (k : Nat) (acc : String),
      values ≠ [] → k + values.length = n →
      (values.enumFrom k).foldl
        (fun acc iv =>
          if iv.1 = n - 1 then
            acc ++ (property ++ "[]" ++ Operator.str .equals ++ iv.2)
          else
            acc ++ (property ++ "[]" ++ Operator.str .equals ++ iv.2 ++ operand))
        acc
      = acc ++ operandJoin operand
          (values.map fun x => property ++ "[]" ++ Operator.str .equals ++ x) := by
  intro values
  induction values with
  | nil =>
    intro k acc h _
    exact absurd rfl h
  | cons v vs ih =>
    intro k acc _ hk
    cases vs with
    | nil =>
      have hkn : k = n - 1 := by
        simp only [List.length_cons, List.length_nil] at hk
        omega
      simp [List.enumFrom, hkn, operandJoin]
    | cons v2 vs' =>
      have hkn : ¬ (k = n - 1) := by
        simp only [List.length_cons] at hk
        omega
      rw [show List.enumFrom k (v :: v2 :: vs')
            = (k, v) :: List.enumFrom (k + 1) (v2 :: vs') from rfl,
        List.foldl_cons,
        ih (k + 1) _ (by simp) (by simp only [List.length_cons] at hk ⊢; omega)]
      simp [hkn, operandJoin, String.append_assoc]

theorem renderQuery_multi (property operand : String) (values : List String)
    (h2 : 2 ≤ values.length) :
    SpdrSearch.renderQuery property values operand
      = operandJoin operand
          (values.map fun x => property ++ "[]" ++ Operator.str .equals ++ x) := by
  unfold SpdrSearch.renderQuery
  rw [if_neg (by omega)]
  rw [show values.enum = values.enumFrom 0 from rfl,
    searchFold_spec property operand values.length values 0 ""
      (by rintro rfl; simp at h2) (by simp)]
  simp

theorem pad2_length (n : Nat) : (pad2 n).length = 2 := rfl

theorem pad4_length (n : Nat) : (pad4 n).length = 4 := rfl

theorem isoDatePart_in_range (d : JSDate) (h0 : 0 ≤ d.year)
    (h1 : d.year ≤ 9999) : d.isoDatePart = utcDateString d := by
  unfold JSDate.isoDatePart utcDateString isoYearString
  rw [if_pos ⟨h0, h1⟩]

theorem utcDateString_length (d : JSDate) : (utcDateString d).length = 10 := by
  unfold utcDateString
  simp only [String.length_append, pad4_length, pad2_length]
  decide

theorem toISOString_take_ten (d : JSDate) (h0 : 0 ≤ d.year)
    (h1 : d.year ≤ 9999) : d.toISOString.take 10 = utcDateString d := by
  unfold JSDate.toISOString
  rw [isoDatePart_in_range d h0 h1, ← utcDateString_length d,
    string_take_append]

theorem buildQuery_query_invariant_op (x : SpdrQueryBuilder) :
    x._buildQuery.query
      = operandJoin x._operand
          (SpdrQueryBuilder.allParamTokens x._buildQuery) := by
  have h := buildQuery_queryInvariant x
  unfold queryInvariant at h
  rw [SpdrQueryBuilder.buildQuery_operand] at h
  exact h

theorem clear_none_eq (b : SpdrQueryBuilder) :
    b.clear none
      = SpdrQueryBuilder._buildQuery
          { b with
            _params := []
            _sortParams := []
            _paginationParams := []
            _history := b._history ++ [b.query] } := rfl

theorem remove_none_eq (b : SpdrQueryBuilder) (property : String) :
    b.remove property none
      = SpdrQueryBuilder._buildQuery
          { b with
            _params := b._params.filter fun p => p.property != property
            _sortParams := b._sortParams.filter fun p => p.property != property
            _paginationParams :=
              b._paginationParams.filter fun p => p.property != property } := rfl

theorem remove_param_eq (b : SpdrQueryBuilder) (property : String) :
    b.remove property (some SpdrParamType.param)
      = SpdrQueryBuilder._buildQuery
          { b with
            _params :=
              b._params.filter fun p => p.property != property } := rfl

theorem remove_sort_eq (b : SpdrQueryBuilder) (property : String) :
    b.remove property (some SpdrParamType.sort)
      = SpdrQueryBuilder._buildQuery
          { b with
            _sortParams :=
              b._sortParams.filter fun p => p.property != property } := rfl

theorem remove_pagination_eq (b : SpdrQueryBuilder) (property : String) :
    b.remove property (some SpdrParamType.pagination)
      = SpdrQueryBuilder._buildQuery
          { b with
            _paginationParams :=
              b._paginationParams.filter fun p => p.property != property } :=
  rfl

/-! ## Claim theorems -/

/-- C1: for every builder whose three sequences are collectively
non-empty, the value of `query` (maintained by `_buildQuery` after every
structural change) equals the parameters' pre-rendered tokens in category
order (filters, sort, pagination) and insertion order within category,
joined by the current operand — equivalently, the concatenation of
operand-prefixed tokens with exactly one leading operand stripped. -/
theorem C1_query_is_operand_join (b : SpdrQueryBuilder)
    (h : b._params ++ b._sortParams ++ b._paginationParams ≠ []) :
    b._buildQuery.query
      = operandJoin b._operand (SpdrQueryBuilder.allParamTokens b) := by
  have hq := buildQuery_queryInvariant b
  unfold queryInvariant at hq
  rw [hq, SpdrQueryBuilder.buildQuery_allParamTokens,
    SpdrQueryBuilder.buildQuery_operand]

/-- Witness for C1 at a concrete two-parameter builder. -/
theorem C1_query_is_operand_join_witness :
    (((SpdrQueryBuilder.new none).exists "a").order "n"
          OrderOperator.asc)._params
        ++ (((SpdrQueryBuilder.new none).exists "a").order "n"
          OrderOperator.asc)._sortParams
        ++ (((SpdrQueryBuilder.new none).exists "a").order "n"
          OrderOperator.asc)._paginationParams ≠ [] ∧
    ((((SpdrQueryBuilder.new none).exists "a").order "n"
        OrderOperator.asc)._buildQuery).query
      = "exists[a]=true&order[n]=asc" :=
  ⟨by decide, by
    rw [C1_query_is_operand_join _ (by decide)]
    decide⟩

/-- C2: `clear()` with no argument empties all three sequences, appends
exactly the pre-clear `query` value to the history (so the last history
entry is the query as it was just before the call), and leaves `query`
equal to the empty string. -/
theorem C2_clear_pushes_history_and_empties (b : SpdrQueryBuilder) :
    (b.clear none)._params = [] ∧
    (b.clear none)._sortParams = [] ∧
    (b.clear none)._paginationParams = [] ∧
    (b.clear none)._history = b._history ++ [b.query] ∧
    (b.clear none)._history.getLast? = some b.query ∧
    (b.clear none).query = "" := by
  have hh : (b.clear none)._history = b._history ++ [b.query] := by
    rw [clear_none_eq]
    exact SpdrQueryBuilder.buildQuery_history _
  refine ⟨?_, ?_, ?_, hh, ?_, ?_⟩
  · rw [clear_none_eq]
    exact SpdrQueryBuilder.buildQuery_params _
  · rw [clear_none_eq]
    exact SpdrQueryBuilder.buildQuery_sortParams _
  · rw [clear_none_eq]
    exact SpdrQueryBuilder.buildQuery_paginationParams _
  · rw [hh]
    exact List.getLast?_concat _
  · rw [clear_none_eq, buildQuery_query_invariant_op,
      SpdrQueryBuilder.buildQuery_allParamTokens]
    rfl

/-- C3 as stated is false: `operand(value)` replaces the delimiter
without a rebuild, so immediately afterwards `query` (which slices the
new operand's length off a string accumulated with the old operand) need
not equal the from-scratch recomputation.  Concretely, build `a=1` with
operand `&`, then set the operand to `||`: `query` becomes `=1` while
the recomputation gives `a=1`. -/
theorem C3_counterexample :
    SpdrQueryBuilder.query
        (((SpdrQueryBuilder.new none).search "a" ["1"] none).operand "||")
      = "=1" ∧
    operandJoin
        ((((SpdrQueryBuilder.new none).search "a" ["1"] none).operand
          "||"))._operand
        (SpdrQueryBuilder.allParamTokens
          (((SpdrQueryBuilder.new none).search "a" ["1"] none).operand "||"))
      = "a=1" ∧
    SpdrQueryBuilder.query
        (((SpdrQueryBuilder.new none).search "a" ["1"] none).operand "||")
      ≠ operandJoin
          ((((SpdrQueryBuilder.new none).search "a" ["1"] none).operand
            "||"))._operand
          (SpdrQueryBuilder.allParamTokens
            (((SpdrQueryBuilder.new none).search "a" ["1"] none).operand
              "||")) := by
  refine ⟨by decide, by decide, by decide⟩

/-- C3 amended: the invariant "`query` equals the from-scratch
recomputation from the three sequences and the current operand" holds at
every state produced by a structural mutation (parameter addition,
`remove`, `clear`, or direct sequence replacement); it is only the
operand-setting method, which does not rebuild, that can break it. -/
theorem C3_amended_invariant_after_structural_mutation
    (b : SpdrQueryBuilder) (p : SpdrParam) (property : String)
    (t : Option SpdrParamType) (l : List SpdrParam) :
    queryInvariant (b._addParam p) ∧
    queryInvariant (b._addSortParam p) ∧
    queryInvariant (b._addPaginationParam p) ∧
    queryInvariant (b.remove property t) ∧
    queryInvariant (b.clear t) ∧
    queryInvariant (b.setParams l) ∧
    queryInvariant (b.setSortParams l) ∧
    queryInvariant (b.setPaginationParams l) := by
  refine ⟨buildQuery_queryInvariant _, buildQuery_queryInvariant _,
    buildQuery_queryInvariant _, ?_, ?_, buildQuery_queryInvariant _,
    buildQuery_queryInvariant _, buildQuery_queryInvariant _⟩
  · rcases t with _ | ty
    · exact buildQuery_queryInvariant _
    · cases ty <;> exact buildQuery_queryInvariant _
  · rcases t with _ | ty
    · exact buildQuery_queryInvariant _
    · cases ty <;> exact buildQuery_queryInvariant _

/-- C4: the `SpdrRange` token has the two-ended `<v>..<v2>` form exactly
when the operator is `between` and the second value is truthy (non-zero);
in every other case — including a second value of `0`, which JavaScript
treats as absent — it has the single-value form. -/
theorem C4_range_token (property : String) (op : RangeOperator)
    (v v2 : Int) :
    (SpdrRange property op v (some v2)).query
      = if op = RangeOperator.between ∧ v2 ≠ 0 then
          property ++ "[" ++ RangeOperator.str op ++ "]=" ++ jsNumString v
            ++ ".." ++ jsNumString v2
        else
          property ++ "[" ++ RangeOperator.str op ++ "]=" ++ jsNumString v := by
  by_cases h1 : op = RangeOperator.between <;> by_cases h2 : v2 = 0 <;>
    simp [SpdrRange, numTruthy, h1, h2]

/-- C5: a `SpdrSearch` with exactly one value renders
`<property>=<value>`; with two or more values it renders
`<property>[]=<value>` for each value with the operand after every value
except the last. -/
theorem C5_search_token (property operand v : String)
    (values : List String) :
    (SpdrSearch property [v] operand).query = property ++ "=" ++ v ∧
    (2 ≤ values.length →
      (SpdrSearch property values operand).query
        = operandJoin operand
            (values.map fun x => property ++ "[]=" ++ x)) := by
  constructor
  · simp [SpdrSearch, SpdrSearch.renderQuery, Operator.str]
  · intro h2
    have hfun : (fun x => property ++ "[]" ++ Operator.str .equals ++ x)
        = fun x => property ++ "[]=" ++ x := by
      funext x
      rw [String.append_assoc property "[]" (Operator.str .equals),
        show ("[]" ++ Operator.str .equals : String) = "[]=" from by decide]
    show SpdrSearch.renderQuery property values operand = _
    rw [renderQuery_multi property operand values h2, hfun]

/-- Witness for C5: `Search('tag',['a'])` gives `tag=a` and
`Search('tag',['a','b'],'&')` gives `tag[]=a&tag[]=b`. -/
theorem C5_search_token_witness :
    (SpdrSearch "tag" ["a"] "&").query = "tag" ++ "=" ++ "a" ∧
    2 ≤ (["a", "b"] : List String).length ∧
    (SpdrSearch "tag" ["a", "b"] "&").query
      = operandJoin "&" ((["a", "b"] : List String).map
          fun x => "tag" ++ "[]=" ++ x) ∧
    (SpdrSearch "tag" ["a", "b"] "&").query = "tag[]=a&tag[]=b" :=
  ⟨(C5_search_token "tag" "&" "a" ["a", "b"]).1, by decide,
    (C5_search_token "tag" "&" "a" ["a", "b"]).2 (by decide), by decide⟩

/-- C6 as universally stated is false: `toISOString().slice(0, 10)` is
the UTC calendar date only for years 0..9999.  For a date in year 10000
ECMAScript's `toISOString` uses the expanded year format `+010000-…`, so
the sliced date part is `+010000-01`, not the calendar date
`10000-01-01`. -/
theorem C6_counterexample :
    (SpdrDate "createdAt" DateOperator.after
        (JSDate.mk 10000 1 1 0 0 0 0)).query
      = "createdAt[after]=+010000-01" ∧
    (SpdrDate "createdAt" DateOperator.after
        (JSDate.mk 10000 1 1 0 0 0 0)).query
      ≠ "createdAt[after]=10000-01-01" := by
  refine ⟨by decide, by decide⟩

/-- C6 amended: for every `Date` value whose UTC year lies in 0..9999
(four-digit ISO years), the `SpdrDate` token is
`<property>[<operator>]=<YYYY-MM-DD>` with the date part the value's UTC
calendar date; time of day and timezone are discarded. -/
theorem C6_date_token (property : String) (op : DateOperator) (d : JSDate)
    (h0 : 0 ≤ d.year) (h1 : d.year ≤ 9999) :
    (SpdrDate property op d).query
      = property ++ "[" ++ DateOperator.str op ++ "]=" ++ utcDateString d := by
  show property ++ "[" ++ DateOperator.str op ++ "]="
      ++ d.toISOString.take 10 = _
  rw [toISOString_take_ten d h0 h1]

/-- Witness for C6 at `Date('2021-05-03T10:00:00Z')`: the token is
`createdAt[after]=2021-05-03`, the time of day dropped. -/
theorem C6_date_token_witness :
    0 ≤ (JSDate.mk 2021 5 3 10 0 0 0).year ∧
    (JSDate.mk 2021 5 3 10 0 0 0).year ≤ 9999 ∧
    (SpdrDate "createdAt" DateOperator.after
        (JSDate.mk 2021 5 3 10 0 0 0)).query
      = "createdAt" ++ "[" ++ DateOperator.str DateOperator.after ++ "]="
          ++ utcDateString (JSDate.mk 2021 5 3 10 0 0 0) ∧
    (SpdrDate "createdAt" DateOperator.after
        (JSDate.mk 2021 5 3 10 0 0 0)).query
      = "createdAt[after]=2021-05-03" :=
  ⟨by decide, by decide,
    C6_date_token "createdAt" DateOperator.after
      (JSDate.mk 2021 5 3 10 0 0 0) (by decide) (by decide),
    by decide⟩

/-- C7: `remove(property)` filters every matching parameter out of all
three sequences and `remove(property, category)` only out of the named
one; in both cases the history is untouched, the operand is unchanged,
and `query` is rebuilt as the operand-join of the remaining tokens. -/
theorem C7_remove_filters (b : SpdrQueryBuilder) (property : String)
    (t : Option SpdrParamType) :
    (b.remove property t)._history = b._history ∧
    (b.remove property t)._operand = b._operand ∧
    (b.remove property t)._params
      = (match t with
         | none | some SpdrParamType.param =>
           b._params.filter fun p => p.property != property
         | some SpdrParamType.sort | some SpdrParamType.pagination =>
           b._params) ∧
    (b.remove property t)._sortParams
      = (match t with
         | none | some SpdrParamType.sort =>
           b._sortParams.filter fun p => p.property != property
         | some SpdrParamType.param | some SpdrParamType.pagination =>
           b._sortParams) ∧
    (b.remove property t)._paginationParams
      = (match t with
         | none | some SpdrParamType.pagination =>
           b._paginationParams.filter fun p => p.property != property
         | some SpdrParamType.param | some SpdrParamType.sort =>
           b._paginationParams) ∧
    (b.remove property t).query
      = operandJoin b._operand
          (SpdrQueryBuilder.allParamTokens (b.remove property t)) := by
  rcases t with _ | ty
  · rw [remove_none_eq]
    exact ⟨SpdrQueryBuilder.buildQuery_history _,
      SpdrQueryBuilder.buildQuery_operand _,
      SpdrQueryBuilder.buildQuery_params _,
      SpdrQueryBuilder.buildQuery_sortParams _,
      SpdrQueryBuilder.buildQuery_paginationParams _,
      buildQuery_query_invariant_op _⟩
  · cases ty
    · rw [remove_param_eq]
      exact ⟨SpdrQueryBuilder.buildQuery_history _,
        SpdrQueryBuilder.buildQuery_operand _,
        SpdrQueryBuilder.buildQuery_params _,
        SpdrQueryBuilder.buildQuery_sortParams _,
        SpdrQueryBuilder.buildQuery_paginationParams _,
        buildQuery_query_invariant_op _⟩
    · rw [remove_sort_eq]
      exact ⟨SpdrQueryBuilder.buildQuery_history _,
        SpdrQueryBuilder.buildQuery_operand _,
        SpdrQueryBuilder.buildQuery_params _,
        SpdrQueryBuilder.buildQuery_sortParams _,
        SpdrQueryBuilder.buildQuery_paginationParams _,
        buildQuery_query_invariant_op _⟩
    · rw [remove_pagination_eq]
      exact ⟨SpdrQueryBuilder.buildQuery_history _,
        SpdrQueryBuilder.buildQuery_operand _,
        SpdrQueryBuilder.buildQuery_params _,
        SpdrQueryBuilder.buildQuery_sortParams _,
        SpdrQueryBuilder.buildQuery_paginationParams _,
        buildQuery_query_invariant_op _⟩

/-- C8: `previousQuery` (history indexed at `length - 1`) is exactly the
most recently appended history entry, `none` (JS `undefined`) when the
history is empty. -/
theorem C8_previousQuery_is_last (b : SpdrQueryBuilder) :
    b.previousQuery = b._history.getLast? :=
  list_get?_length_sub_one b._history

/-- C9: a `SpdrSearch` built from an empty value list falls through both
branches of the constructor and keeps the empty token, so `_append`-ing
it to a builder extends the accumulator by exactly one bare operand. -/
theorem C9_empty_search_bare_delimiter (property operand : String)
    (b : SpdrQueryBuilder) :
    (SpdrSearch property [] operand).query = "" ∧
    (b._append (SpdrSearch property [] operand))._query
      = b._query ++ b._operand := by
  have h : (SpdrSearch property [] operand).query = "" := rfl
  refine ⟨h, ?_⟩
  show b._query ++ (b._operand ++ (SpdrSearch property [] operand).query) = _
  rw [h]
  simp

/-- C10: `remove` is idempotent — running the same removal twice in a
row produces exactly the builder state (all six fields) of running it
once, for any property and any optional category. -/
theorem C10_remove_idempotent (b : SpdrQueryBuilder) (property : String)
    (t : Option SpdrParamType) :
    (b.remove property t).remove property t = b.remove property t := by
  rcases t with _ | ty
  · rw [remove_none_eq b property, remove_none_eq]
    exact buildQuery_congr
      (by simp [SpdrQueryBuilder.buildQuery_operand])
      (by simp [SpdrQueryBuilder.buildQuery_history])
      (by simp [SpdrQueryBuilder.buildQuery_params, list_filter_idem])
      (by simp [SpdrQueryBuilder.buildQuery_sortParams, list_filter_idem])
      (by simp [SpdrQueryBuilder.buildQuery_paginationParams,
        list_filter_idem])
  · cases ty
    · rw [remove_param_eq b property, remove_param_eq]
      exact buildQuery_congr
        (by simp [SpdrQueryBuilder.buildQuery_operand])
        (by simp [SpdrQueryBuilder.buildQuery_history])
        (by simp [SpdrQueryBuilder.buildQuery_params, list_filter_idem])
        (by simp [SpdrQueryBuilder.buildQuery_sortParams])
        (by simp [SpdrQueryBuilder.buildQuery_paginationParams])
    · rw [remove_sort_eq b property, remove_sort_eq]
      exact buildQuery_congr
        (by simp [SpdrQueryBuilder.buildQuery_operand])
        (by simp [SpdrQueryBuilder.buildQuery_history])
        (by simp [SpdrQueryBuilder.buildQuery_params])
        (by simp [SpdrQueryBuilder.buildQuery_sortParams, list_filter_idem])
        (by simp [SpdrQueryBuilder.buildQuery_paginationParams])
    · rw [remove_pagination_eq b property, remove_pagination_eq]
      exact buildQuery_congr
        (by simp [SpdrQueryBuilder.buildQuery_operand])
        (by simp [SpdrQueryBuilder.buildQuery_history])
        (by simp [SpdrQueryBuilder.buildQuery_params])
        (by simp [SpdrQueryBuilder.buildQuery_sortParams])
        (by simp [SpdrQueryBuilder.buildQuery_paginationParams,
          list_filter_idem])
